import Mathlib

/-!
A shallow embedding of the decode pipeline of
`QRCodeReader/pyzbar/pyzbar.py` and proofs about it.

The external zbar engine is modelled as an oracle (`Engine`) fixing the
results of its primitives: the handle returned by
`zbar_image_scanner_create`, the handle returned by `zbar_image_create`,
the status returned by `zbar_scan_image`, and the chain of symbols reached
from `zbar_image_first_symbol` via `zbar_symbol_next` (represented as the
finite list it yields, each symbol carrying the values its accessors
return).  `decode` is embedded as a pure function from the oracle and the
caller's arguments to the Python outcome (a result list or a raised
exception) paired with the ordered trace of engine primitive invocations,
so that resource-lifecycle properties are statements about the trace.

Machine integers are modelled as `Nat`/`Int`; Python's true division in
the bits-per-pixel computation is modelled exactly with `ℚ` (the operands
the code produces are small enough that the float division is exact on
every input considered here), and division by zero as the
`ZeroDivisionError` Python would raise.
-/

deriving instance DecidableEq for Except

/-- The record `Rect = namedtuple('Rect', ['left', 'top', 'width', 'height'])`
— an axis-aligned bounding box, all fields integers. -/
structure Rect where
  left : Int
  top : Int
  width : Int
  height : Int
deriving DecidableEq, Repr

/-- The record `Decoded = namedtuple('Decoded', ['data', 'type', 'rect'])`.
`data` is the payload byte string read through `zbar_symbol_get_data`;
`type` keeps the raw numeric symbol-type code.  Modelled from the spec:
the translation of the numeric code to its symbolic name is a lookup in
the `ZBarSymbol` enumeration of the `wrapper` module, which is not among
the analysed sources, so the code itself stands in for the name. -/
structure Decoded where
  data : List Nat
  type : Nat
  rect : Rect
deriving DecidableEq, Repr

/-- The Python exceptions the pipeline can raise: `PyZbarError(message)`
(the library's single exception class, `pyzbar_error.PyZbarError`), the
built-in `ValueError` (raised by `min`/`max` on an empty sequence), and
the built-in `ZeroDivisionError` (raised by `/` when `width*height` is
zero). -/
inductive PyErr where
  | pyZbarError (message : String)
  | valueError
  | zeroDivisionError
deriving DecidableEq, Repr

/-- Whether an exception is an instance of the library's own exception
class `PyZbarError` (a "decode-level" error), as opposed to a Python
built-in exception. -/
def is_pyzbar_error : PyErr → Bool
  | .pyZbarError _ => true
  | .valueError => false
  | .zeroDivisionError => false

/-- One invocation of an engine primitive, recorded in order of
invocation.  `setConfig symbol value` records a
`zbar_image_scanner_set_config(scanner, symbol, ZBarConfig.CFG_ENABLE,
value)` call. -/
inductive Call where
  | scannerCreate
  | scannerDestroy
  | setConfig (symbol : Nat) (value : Int)
  | imageCreate
  | imageDestroy
  | setFormat (fourcc : Nat)
  | setSize (width height : Nat)
  | setData (length : Nat)
  | scanImage
deriving DecidableEq, Repr

/-- What the engine reports for one detected symbol: the payload bytes
behind `zbar_symbol_get_data`, the numeric type code
(`symbol.contents.type`), and the scan-point locations
`(zbar_symbol_get_loc_x(symbol, i), zbar_symbol_get_loc_y(symbol, i))`
for `i` in `range(zbar_symbol_get_loc_size(symbol))`. -/
structure SymbolRec where
  data : List Nat
  type : Nat
  locations : List (Int × Int)
deriving DecidableEq, Repr

/-- The oracle fixing the behaviour of the external zbar engine for one
run: the handle `zbar_image_scanner_create` returns (`none` = NULL), the
handle `zbar_image_create` returns, the status `zbar_scan_image` returns,
and the finite symbol chain that walking `zbar_image_first_symbol` /
`zbar_symbol_next` to exhaustion yields (`[]` when the first-symbol
primitive returns NULL). -/
structure Engine where
  scannerCreateResult : Option Nat
  imageCreateResult : Option Nat
  scanResult : Int
  symbols : List SymbolRec
deriving DecidableEq, Repr

/-- ZBar's fourcc code `FOURCC['L800'] = 808466521`. -/
def FOURCC_L800 : Nat := 808466521

/-- ZBar's fourcc code `FOURCC['GRAY'] = 1497715271`. -/
def FOURCC_GRAY : Nat := 1497715271

/-- Python's built-in `min` over a list: raises `ValueError` on an empty
sequence, otherwise folds the binary minimum from the first element. -/
def pymin (xs : List Int) : Except PyErr Int :=
  match xs with
  | [] => .error .valueError
  | x :: rest => .ok (rest.foldl min x)

/-- Python's built-in `max` over a list: raises `ValueError` on an empty
sequence, otherwise folds the binary maximum from the first element. -/
def pymax (xs : List Int) : Except PyErr Int :=
  match xs with
  | [] => .error .valueError
  | x :: rest => .ok (rest.foldl max x)

/-- The function `bounding_box_of_locations(locations)`: collects the x values and the
y values and returns `Rect(x_min, y_min, x_max - x_min, y_max - y_min)`.
On an empty location list the first `min` call raises `ValueError`. -/
def bounding_box_of_locations (locations : List (Int × Int)) :
    Except PyErr Rect :=
  match pymin (locations.map Prod.fst) with
  | .error e => .error e
  | .ok x_min =>
    match pymax (locations.map Prod.fst) with
    | .error e => .error e
    | .ok x_max =>
      match pymin (locations.map Prod.snd) with
      | .error e => .error e
      | .ok y_min =>
        match pymax (locations.map Prod.snd) with
        | .error e => .error e
        | .ok y_max => .ok ⟨x_min, y_min, x_max - x_min, y_max - y_min⟩

/-- The generator `symbols_for_image(image)`: it follows the engine's
first-symbol / next-symbol chain to exhaustion; in the oracle model this
chain is `eng.symbols`. -/
def symbols_for_image (eng : Engine) : List SymbolRec :=
  eng.symbols

/-- The generator `decode_symbols(symbols)`: for each symbol in order, read the
payload, the type code and the location list, and build a `Decoded`
whose rect is the bounding box of the locations.  The generator is
consumed in order by `results.extend`, so the first exception raised
aborts the whole traversal. -/
def decode_symbols : List SymbolRec → Except PyErr (List Decoded)
  | [] => .ok []
  | s :: rest =>
      match bounding_box_of_locations s.locations with
      | .error e => .error e
      | .ok rect =>
          match decode_symbols rest with
          | .error e => .error e
          | .ok ds => .ok (⟨s.data, s.type, rect⟩ :: ds)

/-- The bits-per-pixel computation of `decode`:
`bpp = 8 * len(pixels) / (width * height)` — Python's true division,
modelled exactly over `ℚ`. -/
def bits_per_pixel (pixels : List Nat) (width height : Nat) : ℚ :=
  8 * (pixels.length : ℚ) / ((width * height : ℕ) : ℚ)

/-- The message of the bits-per-pixel exception:
`'Unsupported bits-per-pixel [{0}]'.format(bpp)`. -/
def bpp_message (bpp : ℚ) : String :=
  "Unsupported bits-per-pixel [" ++ toString bpp ++ "]"

/-- The scanner-configuration calls `decode` issues.  Python's
`if symbols:` skips the whole block when the filter is `None` or empty;
otherwise it disables `set(ZBarSymbol).difference(symbols)` and then
enables each requested type.  Modelled from the spec: the full universe
of known symbol types (the `ZBarSymbol` enumeration) lives in the missing
`wrapper` module, so it is a parameter `allTypes`; the iteration order of
the Python `set` is unspecified, fixed here as `allTypes` order. -/
def configuration_calls (allTypes : List Nat)
    (symbols : Option (List Nat)) : List Call :=
  match symbols with
  | none => []
  | some [] => []
  | some syms =>
      (allTypes.filter (fun t => ! syms.contains t)).map
          (fun t => Call.setConfig t 0)
        ++ syms.map (fun t => Call.setConfig t 1)

/-- The body of `decode` after input normalisation: the bits-per-pixel
check, then `with zbar_image_scanner() as scanner:` (scanner creation,
optional filter configuration), then `with zbar_image() as img:` (image
creation, format/size/data binding, scan, symbol extraction).  Each
context manager raises `PyZbarError` when its create primitive returns
NULL — in that case nothing was acquired and no destroy is issued — and
otherwise runs its destroy primitive exactly once on every exit from its
block, before the exception (if any) propagates. -/
def decodeCore (eng : Engine) (allTypes : List Nat)
    (pixels : List Nat) (width height : Nat)
    (symbols : Option (List Nat)) :
    Except PyErr (List Decoded) × List Call :=
  if width * height = 0 then
    (.error .zeroDivisionError, [])
  else
    let bpp : ℚ := bits_per_pixel pixels width height
    if (8 : ℚ) ≠ bpp then
      (.error (.pyZbarError (bpp_message bpp)), [])
    else
      match eng.scannerCreateResult with
      | none =>
          (.error (.pyZbarError "Could not create decoder"),
            [Call.scannerCreate])
      | some _ =>
          let cfg := configuration_calls allTypes symbols
          match eng.imageCreateResult with
          | none =>
              (.error (.pyZbarError "Could not create image"),
                Call.scannerCreate ::
                  (cfg ++ [Call.imageCreate, Call.scannerDestroy]))
          | some _ =>
              let pre := Call.scannerCreate ::
                (cfg ++ [Call.imageCreate, Call.setFormat FOURCC_L800,
                  Call.setSize width height, Call.setData pixels.length,
                  Call.scanImage])
              if eng.scanResult < 0 then
                (.error (.pyZbarError "Unsupported image format"),
                  pre ++ [Call.imageDestroy, Call.scannerDestroy])
              else
                match decode_symbols (symbols_for_image eng) with
                | .error e =>
                    (.error e,
                      pre ++ [Call.imageDestroy, Call.scannerDestroy])
                | .ok rs =>
                    (.ok rs,
                      pre ++ [Call.imageDestroy, Call.scannerDestroy])

/-- The input-normalisation step for the already-canonical case: the
`else` branch of `decode`'s input dispatch,
`pixels, width, height = image` — a plain destructuring that passes the
three components through unchanged. -/
def normalize_image (image : List Nat × Nat × Nat) : List Nat × Nat × Nat :=
  match image with
  | (pixels, width, height) => (pixels, width, height)

/-- The entry point `decode(image, symbols=None, ...)` for a triple input: normalise the
input, then run the pipeline body. -/
def decode (eng : Engine) (allTypes : List Nat)
    (image : List Nat × Nat × Nat) (symbols : Option (List Nat)) :
    Except PyErr (List Decoded) × List Call :=
  match normalize_image image with
  | (pixels, width, height) =>
      decodeCore eng allTypes pixels width height symbols

/-! ### Helper lemmas -/

theorem foldl_min_le_init (x : Int) (l : List Int) : l.foldl min x ≤ x := by
  induction l generalizing x with
  | nil => exact le_refl x
  | cons a l ih => exact le_trans (ih (min x a)) (min_le_left x a)

theorem init_le_foldl_max (x : Int) (l : List Int) : x ≤ l.foldl max x := by
  induction l generalizing x with
  | nil => exact le_refl x
  | cons a l ih => exact le_trans (le_max_left x a) (ih (max x a))

theorem bounding_box_nonneg (locations : List (Int × Int)) (r : Rect)
    (h : bounding_box_of_locations locations = .ok r) :
    0 ≤ r.width ∧ 0 ≤ r.height := by
  match locations with
  | [] => simp [bounding_box_of_locations, pymin] at h
  | (x, y) :: rest =>
      have hval : bounding_box_of_locations ((x, y) :: rest) =
          .ok ⟨(rest.map Prod.fst).foldl min x,
               (rest.map Prod.snd).foldl min y,
               (rest.map Prod.fst).foldl max x - (rest.map Prod.fst).foldl min x,
               (rest.map Prod.snd).foldl max y - (rest.map Prod.snd).foldl min y⟩ := rfl
      rw [hval] at h
      obtain rfl := (Except.ok.inj h).symm
      constructor
      · exact sub_nonneg.mpr
          (le_trans (foldl_min_le_init x (rest.map Prod.fst))
            (init_le_foldl_max x (rest.map Prod.fst)))
      · exact sub_nonneg.mpr
          (le_trans (foldl_min_le_init y (rest.map Prod.snd))
            (init_le_foldl_max y (rest.map Prod.snd)))

theorem bounding_box_error (locations : List (Int × Int)) (e : PyErr)
    (h : bounding_box_of_locations locations = .error e) :
    e = PyErr.valueError := by
  match locations with
  | [] =>
      simp only [bounding_box_of_locations, pymin, List.map_nil,
        Except.error.injEq] at h
      exact h.symm
  | (x, y) :: rest =>
      have hval : bounding_box_of_locations ((x, y) :: rest) =
          .ok ⟨(rest.map Prod.fst).foldl min x,
               (rest.map Prod.snd).foldl min y,
               (rest.map Prod.fst).foldl max x - (rest.map Prod.fst).foldl min x,
               (rest.map Prod.snd).foldl max y - (rest.map Prod.snd).foldl min y⟩ := rfl
      rw [hval] at h
      simp at h

theorem decode_symbols_rect_nonneg (syms : List SymbolRec)
    (results : List Decoded) (h : decode_symbols syms = .ok results) :
    ∀ d ∈ results, 0 ≤ d.rect.width ∧ 0 ≤ d.rect.height := by
  induction syms generalizing results with
  | nil =>
      simp only [decode_symbols, Except.ok.injEq] at h
      subst h
      intro d hd
      simp at hd
  | cons s rest ih =>
      cases hb : bounding_box_of_locations s.locations with
      | error e => simp [decode_symbols, hb] at h
      | ok r =>
          cases hd : decode_symbols rest with
          | error e => simp [decode_symbols, hb, hd] at h
          | ok ds =>
              simp only [decode_symbols, hb, hd, Except.ok.injEq] at h
              subst h
              intro d hdm
              rcases List.mem_cons.mp hdm with rfl | hmem
              · exact bounding_box_nonneg s.locations r hb
              · exact ih ds hd d hmem

theorem decode_ok_extraction (eng : Engine) (allTypes : List Nat)
    (image : List Nat × Nat × Nat) (symbols : Option (List Nat))
    (results : List Decoded) (trace : List Call)
    (h : decode eng allTypes image symbols = (.ok results, trace)) :
    decode_symbols (symbols_for_image eng) = .ok results := by
  obtain ⟨pixels, width, height⟩ := image
  simp only [decode, normalize_image, decodeCore] at h
  split at h
  · simp at h
  · split at h
    · simp at h
    · split at h
      · simp at h
      · split at h
        · simp at h
        · split at h
          · simp at h
          · split at h
            · simp at h
            · rename_i heq
              simp only [Prod.mk.injEq, Except.ok.injEq] at h
              rw [heq, h.1]

def is_set_config : Call → Bool
  | .setConfig _ _ => true
  | _ => false

theorem configuration_calls_set_config (allTypes : List Nat)
    (symbols : Option (List Nat)) :
    ∀ c ∈ configuration_calls allTypes symbols, is_set_config c = true := by
  intro c hc
  match symbols with
  | none => simp [configuration_calls] at hc
  | some [] => simp [configuration_calls] at hc
  | some (t :: ts) =>
      simp only [configuration_calls, List.mem_append, List.mem_map] at hc
      rcases hc with ⟨a, _, rfl⟩ | ⟨a, _, rfl⟩ <;> rfl

theorem configuration_calls_not_mem (allTypes : List Nat)
    (symbols : Option (List Nat)) (c : Call)
    (hc : is_set_config c = false) :
    c ∉ configuration_calls allTypes symbols := by
  intro h
  rw [configuration_calls_set_config allTypes symbols c h] at hc
  exact Bool.noConfusion hc

theorem configuration_calls_count (allTypes : List Nat)
    (symbols : Option (List Nat)) (c : Call)
    (hc : is_set_config c = false) :
    (configuration_calls allTypes symbols).count c = 0 :=
  List.count_eq_zero.mpr (configuration_calls_not_mem allTypes symbols c hc)

/-! ### Run lemmas: the outcome of `decode` on each error path -/

theorem decode_run_bpp_mismatch (eng : Engine) (allTypes : List Nat)
    (pixels : List Nat) (width height : Nat) (symbols : Option (List Nat))
    (hwh : width * height ≠ 0)
    (hbpp : bits_per_pixel pixels width height ≠ 8) :
    decode eng allTypes (pixels, width, height) symbols =
      (.error (.pyZbarError
        (bpp_message (bits_per_pixel pixels width height))), []) := by
  simp only [decode, normalize_image, decodeCore]
  rw [if_neg hwh, if_pos (Ne.symm hbpp)]

theorem decode_run_scanner_null (eng : Engine) (allTypes : List Nat)
    (pixels : List Nat) (width height : Nat) (symbols : Option (List Nat))
    (hwh : width * height ≠ 0)
    (hbpp : bits_per_pixel pixels width height = 8)
    (hs : eng.scannerCreateResult = none) :
    decode eng allTypes (pixels, width, height) symbols =
      (.error (.pyZbarError "Could not create decoder"),
        [Call.scannerCreate]) := by
  simp only [decode, normalize_image, decodeCore]
  rw [if_neg hwh, if_neg (fun hn => hn hbpp.symm), hs]

theorem decode_run_image_null (eng : Engine) (allTypes : List Nat)
    (pixels : List Nat) (width height : Nat) (symbols : Option (List Nat))
    (s : Nat)
    (hwh : width * height ≠ 0)
    (hbpp : bits_per_pixel pixels width height = 8)
    (hs : eng.scannerCreateResult = some s)
    (hi : eng.imageCreateResult = none) :
    decode eng allTypes (pixels, width, height) symbols =
      (.error (.pyZbarError "Could not create image"),
        Call.scannerCreate ::
          (configuration_calls allTypes symbols ++
            [Call.imageCreate, Call.scannerDestroy])) := by
  simp only [decode, normalize_image, decodeCore]
  rw [if_neg hwh, if_neg (fun hn => hn hbpp.symm), hs, hi]

theorem decode_run_scan_negative (eng : Engine) (allTypes : List Nat)
    (pixels : List Nat) (width height : Nat) (symbols : Option (List Nat))
    (s i : Nat)
    (hwh : width * height ≠ 0)
    (hbpp : bits_per_pixel pixels width height = 8)
    (hs : eng.scannerCreateResult = some s)
    (hi : eng.imageCreateResult = some i)
    (hscan : eng.scanResult < 0) :
    decode eng allTypes (pixels, width, height) symbols =
      (.error (.pyZbarError "Unsupported image format"),
        (Call.scannerCreate ::
          (configuration_calls allTypes symbols ++
            [Call.imageCreate, Call.setFormat FOURCC_L800,
             Call.setSize width height, Call.setData pixels.length,
             Call.scanImage])) ++
          [Call.imageDestroy, Call.scannerDestroy]) := by
  simp only [decode, normalize_image, decodeCore]
  rw [if_neg hwh, if_neg (fun hn => hn hbpp.symm), hs, hi, if_pos hscan]

theorem decode_trace_split (eng : Engine) (allTypes : List Nat)
    (pixels : List Nat) (width height : Nat) (symbols : Option (List Nat))
    (s : Nat)
    (hwh : width * height ≠ 0)
    (hbpp : bits_per_pixel pixels width height = 8)
    (hs : eng.scannerCreateResult = some s) :
    ∃ rest, (decode eng allTypes (pixels, width, height) symbols).2 =
        Call.scannerCreate :: (configuration_calls allTypes symbols ++ rest) ∧
      ∀ t v, Call.setConfig t v ∉ rest := by
  simp only [decode, normalize_image, decodeCore]
  rw [if_neg hwh, if_neg (fun hn => hn hbpp.symm), hs]
  cases hi : eng.imageCreateResult with
  | none =>
      exact ⟨[Call.imageCreate, Call.scannerDestroy], rfl, by intro t v; simp⟩
  | some i =>
      by_cases hscan : eng.scanResult < 0
      · rw [if_pos hscan]
        refine ⟨[Call.imageCreate, Call.setFormat FOURCC_L800,
          Call.setSize width height, Call.setData pixels.length,
          Call.scanImage, Call.imageDestroy, Call.scannerDestroy], by simp, ?_⟩
        intro t v; simp
      · rw [if_neg hscan]
        cases decode_symbols (symbols_for_image eng) with
        | error e =>
            refine ⟨[Call.imageCreate, Call.setFormat FOURCC_L800,
              Call.setSize width height, Call.setData pixels.length,
              Call.scanImage, Call.imageDestroy, Call.scannerDestroy], by simp, ?_⟩
            intro t v; simp
        | ok rs =>
            refine ⟨[Call.imageCreate, Call.setFormat FOURCC_L800,
              Call.setSize width height, Call.setData pixels.length,
              Call.scanImage, Call.imageDestroy, Call.scannerDestroy], by simp, ?_⟩
            intro t v; simp

/-! ### Claim theorems -/

/-- C1: for every non-empty list of (x, y) scan points,
`bounding_box_of_locations` returns the rectangle whose left/top are the
minima of the x/y values and whose width/height are the corresponding
max-minus-min spans; in particular on the four corner points
{(10,10),(50,10),(50,30),(10,30)} it returns
{left:10, top:10, width:40, height:20}. -/
theorem bounding_box_of_locations_minmax :
    (∀ locations : List (Int × Int), locations ≠ [] →
      ∀ xmin xmax ymin ymax : Int,
        (locations.map Prod.fst).min? = some xmin →
        (locations.map Prod.fst).max? = some xmax →
        (locations.map Prod.snd).min? = some ymin →
        (locations.map Prod.snd).max? = some ymax →
        bounding_box_of_locations locations =
          .ok ⟨xmin, ymin, xmax - xmin, ymax - ymin⟩) ∧
    bounding_box_of_locations [(10, 10), (50, 10), (50, 30), (10, 30)] =
      .ok ⟨10, 10, 40, 20⟩ := by
  constructor
  · intro locations hne xmin xmax ymin ymax h1 h2 h3 h4
    match locations with
    | (x, y) :: rest =>
        simp only [List.map_cons, List.min?_cons', List.max?_cons',
          Option.some.injEq] at h1 h2 h3 h4
        subst h1 h2 h3 h4
        rfl
  · decide

/-- Witness for C1 at the non-empty list [(1,5),(3,2)]. -/
theorem bounding_box_of_locations_minmax_witness :
    bounding_box_of_locations [((1 : Int), (5 : Int)), (3, 2)] =
      .ok ⟨1, 2, 2, 3⟩ :=
  bounding_box_of_locations_minmax.1 [(1, 5), (3, 2)] (by decide)
    1 3 2 5 (by decide) (by decide) (by decide) (by decide)

/-- C2: whenever the computed bits-per-pixel differs from 8 the decode
call raises the decode-level error naming the computed value, with an
empty primitive trace — in particular neither create primitive was
invoked. -/
theorem decode_bpp_mismatch_short_circuits (eng : Engine)
    (allTypes : List Nat) (pixels : List Nat) (width height : Nat)
    (symbols : Option (List Nat))
    (hwh : width * height ≠ 0)
    (hbpp : bits_per_pixel pixels width height ≠ 8) :
    decode eng allTypes (pixels, width, height) symbols =
      (.error (.pyZbarError
        (bpp_message (bits_per_pixel pixels width height))), []) ∧
    Call.scannerCreate ∉ (decode eng allTypes (pixels, width, height) symbols).2 ∧
    Call.imageCreate ∉ (decode eng allTypes (pixels, width, height) symbols).2 := by
  have hdec := decode_run_bpp_mismatch eng allTypes pixels width height
    symbols hwh hbpp
  refine ⟨hdec, ?_, ?_⟩ <;> rw [hdec] <;> simp

/-- Witness for C2: a buffer of length `width*height*2` computes bpp 16. -/
theorem decode_bpp_mismatch_short_circuits_witness :
    decode ⟨some 1, some 1, 0, []⟩ [] ([0, 0], 1, 1) none =
      (.error (.pyZbarError (bpp_message (bits_per_pixel [0, 0] 1 1))), []) ∧
    Call.scannerCreate ∉ (decode ⟨some 1, some 1, 0, []⟩ [] ([0, 0], 1, 1) none).2 ∧
    Call.imageCreate ∉ (decode ⟨some 1, some 1, 0, []⟩ [] ([0, 0], 1, 1) none).2 :=
  decode_bpp_mismatch_short_circuits ⟨some 1, some 1, 0, []⟩ [] [0, 0] 1 1 none
    (by decide) (by norm_num [bits_per_pixel])

/-- C3: when scanner and image were both created and the engine's scan
primitive reports a negative status, decode raises the fatal
`PyZbarError('Unsupported image format')`, and the trace accumulated
before the error reaches the caller contains exactly one image-destroy
and exactly one scanner-destroy invocation. -/
theorem decode_scan_failure_cleanup (eng : Engine) (allTypes : List Nat)
    (pixels : List Nat) (width height : Nat) (symbols : Option (List Nat))
    (s i : Nat)
    (hwh : width * height ≠ 0)
    (hbpp : bits_per_pixel pixels width height = 8)
    (hs : eng.scannerCreateResult = some s)
    (hi : eng.imageCreateResult = some i)
    (hscan : eng.scanResult < 0) :
    (decode eng allTypes (pixels, width, height) symbols).1 =
      .error (.pyZbarError "Unsupported image format") ∧
    (decode eng allTypes (pixels, width, height) symbols).2.count
      Call.imageDestroy = 1 ∧
    (decode eng allTypes (pixels, width, height) symbols).2.count
      Call.scannerDestroy = 1 := by
  have hdec := decode_run_scan_negative eng allTypes pixels width height
    symbols s i hwh hbpp hs hi hscan
  rw [hdec]
  refine ⟨rfl, ?_, ?_⟩
  · simp [List.count_append, List.count_cons,
      configuration_calls_count allTypes symbols Call.imageDestroy rfl]
  · simp [List.count_append, List.count_cons,
      configuration_calls_count allTypes symbols Call.scannerDestroy rfl]

/-- Witness for C3 on a concrete engine whose scan returns -1. -/
theorem decode_scan_failure_cleanup_witness :
    (decode ⟨some 1, some 1, -1, []⟩ [] ([0], 1, 1) none).1 =
      .error (.pyZbarError "Unsupported image format") ∧
    (decode ⟨some 1, some 1, -1, []⟩ [] ([0], 1, 1) none).2.count
      Call.imageDestroy = 1 ∧
    (decode ⟨some 1, some 1, -1, []⟩ [] ([0], 1, 1) none).2.count
      Call.scannerDestroy = 1 :=
  decode_scan_failure_cleanup ⟨some 1, some 1, -1, []⟩ [] [0] 1 1 none 1 1
    (by decide) (by norm_num [bits_per_pixel]) rfl rfl (by decide)

/-- C4: once the scanner exists, decode issues no configuration call at
all when the symbol-type filter is absent or empty; otherwise the trace
starts with the scanner creation followed first by one disable call for
every known type outside the filter and then by one enable call for
every type in the filter; the scan primitive is not in this prefix, and
no configuration call occurs after it. -/
theorem decode_filter_configuration (eng : Engine) (allTypes : List Nat)
    (pixels : List Nat) (width height : Nat) (symbols : Option (List Nat))
    (s : Nat)
    (hwh : width * height ≠ 0)
    (hbpp : bits_per_pixel pixels width height = 8)
    (hs : eng.scannerCreateResult = some s) :
    ((symbols = none ∨ symbols = some []) →
      ∀ t v, Call.setConfig t v ∉
        (decode eng allTypes (pixels, width, height) symbols).2) ∧
    (∀ syms, symbols = some syms → syms ≠ [] →
      (decode eng allTypes (pixels, width, height) symbols).2.take
          (((allTypes.filter (fun t => ! syms.contains t)).map
              (fun t => Call.setConfig t 0)).length +
            (syms.map (fun t => Call.setConfig t 1)).length + 1) =
        Call.scannerCreate ::
          ((allTypes.filter (fun t => ! syms.contains t)).map
              (fun t => Call.setConfig t 0) ++
            syms.map (fun t => Call.setConfig t 1)) ∧
      Call.scanImage ∉
        (decode eng allTypes (pixels, width, height) symbols).2.take
          (((allTypes.filter (fun t => ! syms.contains t)).map
              (fun t => Call.setConfig t 0)).length +
            (syms.map (fun t => Call.setConfig t 1)).length + 1) ∧
      ∀ t v, Call.setConfig t v ∉
        (decode eng allTypes (pixels, width, height) symbols).2.drop
          (((allTypes.filter (fun t => ! syms.contains t)).map
              (fun t => Call.setConfig t 0)).length +
            (syms.map (fun t => Call.setConfig t 1)).length + 1)) := by
  obtain ⟨rest, htr, hrest⟩ :=
    decode_trace_split eng allTypes pixels width height symbols s hwh hbpp hs
  constructor
  · intro h0 t v
    rcases h0 with rfl | rfl <;>
      · rw [htr]
        simp only [configuration_calls, List.nil_append, List.mem_cons]
        rintro (h | h)
        · exact Call.noConfusion h
        · exact hrest t v h
  · intro syms hsym hne
    subst hsym
    have hcfg : configuration_calls allTypes (some syms) =
        (allTypes.filter (fun t => ! syms.contains t)).map
            (fun t => Call.setConfig t 0) ++
          syms.map (fun t => Call.setConfig t 1) := by
      cases syms with
      | nil => exact absurd rfl hne
      | cons a l => rfl
    rw [htr, hcfg]
    set dis := (allTypes.filter (fun t => ! syms.contains t)).map
      (fun t => Call.setConfig t 0) with hdis
    set en := syms.map (fun t => Call.setConfig t 1) with hen
    have htake : (Call.scannerCreate :: (dis ++ en ++ rest)).take
        (dis.length + en.length + 1) = Call.scannerCreate :: (dis ++ en) := by
      rw [List.take_succ_cons, ← List.length_append dis en, List.take_left]
    have hdrop : (Call.scannerCreate :: (dis ++ en ++ rest)).drop
        (dis.length + en.length + 1) = rest := by
      rw [List.drop_succ_cons, ← List.length_append dis en, List.drop_left]
    refine ⟨htake, ?_, ?_⟩
    · rw [htake]
      simp only [List.mem_cons, List.mem_append, hdis, hen, List.mem_map]
      rintro (h | ⟨a, -, h⟩ | ⟨a, -, h⟩) <;> exact Call.noConfusion h
    · intro t v
      rw [hdrop]
      exact hrest t v

/-- Witness for C4 with universe {1,2,3} and filter {2}: two disable
calls then one enable call right after scanner creation. -/
theorem decode_filter_configuration_witness :
    (decode ⟨some 1, some 1, 0, []⟩ [1, 2, 3] ([0], 1, 1) (some [2])).2.take 4 =
      Call.scannerCreate ::
        ([Call.setConfig 1 0, Call.setConfig 3 0] ++ [Call.setConfig 2 1]) :=
  ((decode_filter_configuration ⟨some 1, some 1, 0, []⟩ [1, 2, 3] [0] 1 1
      (some [2]) 1 (by decide) (by norm_num [bits_per_pixel]) rfl).2
    [2] rfl (by decide)).1

/-- C5: when a create primitive returns a NULL handle, decode fails with
the corresponding resource-creation `PyZbarError` and never invokes the
destroy primitive for the handle that was not created (for a failed
scanner creation nothing at all is destroyed; for a failed image
creation the image destroy is never issued, though the already-created
scanner is still released). -/
theorem decode_creation_failure_no_destroy (eng : Engine)
    (allTypes : List Nat) (pixels : List Nat) (width height : Nat)
    (symbols : Option (List Nat))
    (hwh : width * height ≠ 0)
    (hbpp : bits_per_pixel pixels width height = 8) :
    (eng.scannerCreateResult = none →
      decode eng allTypes (pixels, width, height) symbols =
        (.error (.pyZbarError "Could not create decoder"),
          [Call.scannerCreate]) ∧
      Call.scannerDestroy ∉ (decode eng allTypes (pixels, width, height) symbols).2 ∧
      Call.imageDestroy ∉ (decode eng allTypes (pixels, width, height) symbols).2) ∧
    (∀ s, eng.scannerCreateResult = some s →
      eng.imageCreateResult = none →
      (decode eng allTypes (pixels, width, height) symbols).1 =
        .error (.pyZbarError "Could not create image") ∧
      Call.imageDestroy ∉ (decode eng allTypes (pixels, width, height) symbols).2) := by
  constructor
  · intro hs
    have hdec := decode_run_scanner_null eng allTypes pixels width height
      symbols hwh hbpp hs
    refine ⟨hdec, ?_, ?_⟩ <;> rw [hdec] <;> simp
  · intro s hs hi
    have hdec := decode_run_image_null eng allTypes pixels width height
      symbols s hwh hbpp hs hi
    rw [hdec]
    refine ⟨rfl, ?_⟩
    simp only [List.mem_cons, List.mem_append]
    push_neg
    refine ⟨by simp, configuration_calls_not_mem allTypes symbols _ rfl, by simp⟩

/-- Witness for C5: both NULL-create scenarios at concrete inputs. -/
theorem decode_creation_failure_no_destroy_witness :
    (decode ⟨none, some 1, 0, []⟩ [] ([0], 1, 1) none =
        (.error (.pyZbarError "Could not create decoder"),
          [Call.scannerCreate]) ∧
      Call.scannerDestroy ∉ (decode ⟨none, some 1, 0, []⟩ [] ([0], 1, 1) none).2 ∧
      Call.imageDestroy ∉ (decode ⟨none, some 1, 0, []⟩ [] ([0], 1, 1) none).2) ∧
    ((decode ⟨some 1, none, 0, []⟩ [] ([0], 1, 1) none).1 =
        .error (.pyZbarError "Could not create image") ∧
      Call.imageDestroy ∉ (decode ⟨some 1, none, 0, []⟩ [] ([0], 1, 1) none).2) :=
  ⟨(decode_creation_failure_no_destroy ⟨none, some 1, 0, []⟩ [] [0] 1 1 none
      (by decide) (by norm_num [bits_per_pixel])).1 rfl,
   (decode_creation_failure_no_destroy ⟨some 1, none, 0, []⟩ [] [0] 1 1 none
      (by decide) (by norm_num [bits_per_pixel])).2 1 rfl rfl⟩

/-- C6: a scan that succeeds (non-negative status) but detects no
symbols (NULL first-symbol handle, i.e. an empty symbol chain) makes
decode return the empty result list rather than raise. -/
theorem decode_zero_symbols_empty (eng : Engine) (allTypes : List Nat)
    (pixels : List Nat) (width height : Nat) (symbols : Option (List Nat))
    (s i : Nat)
    (hwh : width * height ≠ 0)
    (hbpp : bits_per_pixel pixels width height = 8)
    (hs : eng.scannerCreateResult = some s)
    (hi : eng.imageCreateResult = some i)
    (hscan : 0 ≤ eng.scanResult)
    (hsym : eng.symbols = []) :
    (decode eng allTypes (pixels, width, height) symbols).1 = .ok [] := by
  simp only [decode, normalize_image, decodeCore]
  rw [if_neg hwh, if_neg (fun hn => hn hbpp.symm), hs, hi,
    if_neg (not_lt.mpr hscan)]
  simp [symbols_for_image, hsym, decode_symbols]

/-- Witness for C6 with a concrete engine reporting zero symbols. -/
theorem decode_zero_symbols_empty_witness :
    (decode ⟨some 1, some 1, 0, []⟩ [] ([0], 1, 1) none).1 = .ok [] :=
  decode_zero_symbols_empty ⟨some 1, some 1, 0, []⟩ [] [0] 1 1 none 1 1
    (by decide) (by norm_num [bits_per_pixel]) rfl rfl (by decide) rfl

/-- C7 counterexample: a symbol reporting zero scan points makes result
extraction fail with Python's built-in `ValueError` (from `min` on an
empty sequence), which is not an instance of the decode-level exception
class — there is no `EmptyLocationSet` decode-level error. -/
theorem decode_symbols_empty_locations_counterexample :
    decode_symbols [⟨[], 0, []⟩] = .error PyErr.valueError ∧
      is_pyzbar_error PyErr.valueError = false := by
  decide

/-- C7 amended: when any symbol in the extracted chain reports zero scan
points, result extraction fails — but with Python's built-in
`ValueError` raised by `min` on an empty sequence, not with a
decode-level (`PyZbarError`) exception. -/
theorem decode_symbols_empty_locations_value_error
    (syms : List SymbolRec) (h : ∃ s ∈ syms, s.locations = []) :
    decode_symbols syms = .error PyErr.valueError ∧
      is_pyzbar_error PyErr.valueError = false := by
  refine ⟨?_, rfl⟩
  induction syms with
  | nil => obtain ⟨s, hs, _⟩ := h; simp at hs
  | cons s rest ih =>
      obtain ⟨t, ht, hloc⟩ := h
      rcases List.mem_cons.mp ht with rfl | hmem
      · simp [decode_symbols, hloc, bounding_box_of_locations, pymin]
      · cases hb : bounding_box_of_locations s.locations with
        | error e =>
            obtain rfl := bounding_box_error s.locations e hb
            simp [decode_symbols, hb]
        | ok r => simp [decode_symbols, hb, ih ⟨t, hmem, hloc⟩]

/-- Witness for C7's amended statement: the second symbol reports zero
scan points. -/
theorem decode_symbols_empty_locations_value_error_witness :
    decode_symbols [⟨[1], 2, [(0, 0)]⟩, ⟨[], 0, []⟩] =
        .error PyErr.valueError ∧
      is_pyzbar_error PyErr.valueError = false :=
  decode_symbols_empty_locations_value_error
    [⟨[1], 2, [(0, 0)]⟩, ⟨[], 0, []⟩] ⟨⟨[], 0, []⟩, by decide, rfl⟩

/-- C8: normalising an already-canonical (pixel-bytes, width, height)
triple is a pure pass-through — decode runs the pipeline body on exactly
the given components, and (whenever the run reaches the image binding)
the very same width, height and byte count are bound to the engine
image. -/
theorem decode_triple_passthrough (pixels : List Nat) (width height : Nat)
    (eng : Engine) (allTypes : List Nat) (symbols : Option (List Nat)) :
    normalize_image (pixels, width, height) = (pixels, width, height) ∧
    decode eng allTypes (pixels, width, height) symbols =
      decodeCore eng allTypes pixels width height symbols ∧
    (∀ s i, width * height ≠ 0 →
      bits_per_pixel pixels width height = 8 →
      eng.scannerCreateResult = some s →
      eng.imageCreateResult = some i →
      Call.setSize width height ∈
        (decode eng allTypes (pixels, width, height) symbols).2 ∧
      Call.setData pixels.length ∈
        (decode eng allTypes (pixels, width, height) symbols).2) := by
  refine ⟨rfl, rfl, ?_⟩
  intro s i hwh hbpp hs hi
  simp only [decode, normalize_image, decodeCore]
  rw [if_neg hwh, if_neg (fun hn => hn hbpp.symm), hs, hi]
  by_cases hscan : eng.scanResult < 0
  · rw [if_pos hscan]
    constructor <;> simp
  · rw [if_neg hscan]
    cases decode_symbols (symbols_for_image eng) <;> constructor <;> simp

/-- Witness for C8 on a concrete canonical triple and successful run. -/
theorem decode_triple_passthrough_witness :
    normalize_image ([0], 1, 1) = ([0], 1, 1) ∧
    Call.setSize 1 1 ∈ (decode ⟨some 1, some 1, 0, []⟩ [] ([0], 1, 1) none).2 ∧
    Call.setData 1 ∈ (decode ⟨some 1, some 1, 0, []⟩ [] ([0], 1, 1) none).2 := by
  refine ⟨(decode_triple_passthrough [0] 1 1 ⟨some 1, some 1, 0, []⟩ [] none).1,
    ?_, ?_⟩
  · exact ((decode_triple_passthrough [0] 1 1 ⟨some 1, some 1, 0, []⟩ [] none).2.2
      1 1 (by decide) (by norm_num [bits_per_pixel]) rfl rfl).1
  · exact ((decode_triple_passthrough [0] 1 1 ⟨some 1, some 1, 0, []⟩ [] none).2.2
      1 1 (by decide) (by norm_num [bits_per_pixel]) rfl rfl).2

/-- C9: every rectangle the pipeline produces — whether as the direct
result of the bounding-box reduction on a (necessarily non-empty)
scan-point list, or inside any `Decoded` record of a successful `decode`
run — has non-negative width and height. -/
theorem decode_rect_nonneg :
    (∀ (locations : List (Int × Int)) (r : Rect),
      bounding_box_of_locations locations = .ok r →
        0 ≤ r.width ∧ 0 ≤ r.height) ∧
    (∀ (eng : Engine) (allTypes : List Nat) (image : List Nat × Nat × Nat)
      (symbols : Option (List Nat)) (results : List Decoded)
      (trace : List Call),
      decode eng allTypes image symbols = (.ok results, trace) →
        ∀ d ∈ results, 0 ≤ d.rect.width ∧ 0 ≤ d.rect.height) := by
  refine ⟨bounding_box_nonneg, ?_⟩
  intro eng allTypes image symbols results trace h d hd
  exact decode_symbols_rect_nonneg (symbols_for_image eng) results
    (decode_ok_extraction eng allTypes image symbols results trace h) d hd

/-- Witness for C9 on a concrete successful decode run with one symbol. -/
theorem decode_rect_nonneg_witness :
    0 ≤ (Decoded.mk [65] 64 ⟨10, 10, 40, 20⟩).rect.width ∧
      0 ≤ (Decoded.mk [65] 64 ⟨10, 10, 40, 20⟩).rect.height := by
  refine decode_rect_nonneg.2
    ⟨some 1, some 1, 2, [⟨[65], 64, [(10, 10), (50, 10), (50, 30), (10, 30)]⟩]⟩
    [] ([0], 1, 1) none [⟨[65], 64, ⟨10, 10, 40, 20⟩⟩]
    [Call.scannerCreate, Call.imageCreate, Call.setFormat FOURCC_L800,
      Call.setSize 1 1, Call.setData 1, Call.scanImage, Call.imageDestroy,
      Call.scannerDestroy]
    ?_ ⟨[65], 64, ⟨10, 10, 40, 20⟩⟩ (by decide)
  norm_num [decode, normalize_image, decodeCore, bits_per_pixel,
    configuration_calls, symbols_for_image, decode_symbols,
    bounding_box_of_locations, pymin, pymax]

/-- C10: the four deliberately raised decode errors — bpp mismatch, the
two creation failures, and the negative-scan failure — are all raised as
the single exception type `PyZbarError`, and the four categories differ
only in their message strings, which are pairwise distinct. -/
theorem decode_errors_single_exception_type (eng : Engine)
    (allTypes : List Nat) (pixels : List Nat) (width height : Nat)
    (symbols : Option (List Nat))
    (hwh : width * height ≠ 0) :
    (bits_per_pixel pixels width height ≠ 8 →
      (decode eng allTypes (pixels, width, height) symbols).1 =
        .error (.pyZbarError
          (bpp_message (bits_per_pixel pixels width height)))) ∧
    (bits_per_pixel pixels width height = 8 →
      eng.scannerCreateResult = none →
      (decode eng allTypes (pixels, width, height) symbols).1 =
        .error (.pyZbarError "Could not create decoder")) ∧
    (∀ s, bits_per_pixel pixels width height = 8 →
      eng.scannerCreateResult = some s →
      eng.imageCreateResult = none →
      (decode eng allTypes (pixels, width, height) symbols).1 =
        .error (.pyZbarError "Could not create image")) ∧
    (∀ s i, bits_per_pixel pixels width height = 8 →
      eng.scannerCreateResult = some s →
      eng.imageCreateResult = some i →
      eng.scanResult < 0 →
      (decode eng allTypes (pixels, width, height) symbols).1 =
        .error (.pyZbarError "Unsupported image format")) ∧
    (∀ q : ℚ, bpp_message q ≠ "Could not create decoder" ∧
      bpp_message q ≠ "Could not create image" ∧
      bpp_message q ≠ "Unsupported image format") ∧
    ("Could not create decoder" ≠ "Could not create image" ∧
      "Could not create decoder" ≠ "Unsupported image format" ∧
      "Could not create image" ≠ "Unsupported image format") := by
  refine ⟨?_, ?_, ?_, ?_, ?_, by decide⟩
  · intro hbpp
    exact congrArg Prod.fst (decode_run_bpp_mismatch eng allTypes pixels
      width height symbols hwh hbpp)
  · intro hbpp hs
    exact congrArg Prod.fst (decode_run_scanner_null eng allTypes pixels
      width height symbols hwh hbpp hs)
  · intro s hbpp hs hi
    exact congrArg Prod.fst (decode_run_image_null eng allTypes pixels
      width height symbols s hwh hbpp hs hi)
  · intro s i hbpp hs hi hscan
    exact congrArg Prod.fst (decode_run_scan_negative eng allTypes pixels
      width height symbols s i hwh hbpp hs hi hscan)
  · intro q
    refine ⟨?_, ?_, ?_⟩ <;>
      · intro h
        have hl := congrArg String.length h
        rw [bpp_message, String.length_append, String.length_append] at hl
        have h28 : ("Unsupported bits-per-pixel [").length = 28 := rfl
        have h1 : ("]").length = 1 := rfl
        have h24 : ("Could not create decoder").length = 24 := rfl
        have h22 : ("Could not create image").length = 22 := rfl
        have h24b : ("Unsupported image format").length = 24 := rfl
        simp only [h28, h1, h24, h22, h24b] at hl
        omega

/-- Witness for C10 on the scanner-creation failure path. -/
theorem decode_errors_single_exception_type_witness :
    (decode ⟨none, some 1, 0, []⟩ [] ([0], 1, 1) none).1 =
      .error (.pyZbarError "Could not create decoder") :=
  (decode_errors_single_exception_type ⟨none, some 1, 0, []⟩ [] [0] 1 1 none
    (by decide)).2.1 (by norm_num [bits_per_pixel]) rfl
